import Mathlib

/- Verification development for the job-ats-scrapers repository.
   Shallow embedding of the job ingestion pipeline:
   ats_detector.py, LinkedIn-scraper/network_interceptor.py,
   LinkedIn-scraper/linkedin_scraper.py, LinkedIn-scraper/job_pipeline.py.
   Machine integers do not occur; Python strings are modelled as Lean
   Strings (ASCII range, which is all the source manipulates); datetime
   fields of the source's records are elided since no transition reads
   them. -/

/- ### Enumerations (LinkedIn-scraper/schemas.py) -/

inductive ATSProvider where
  | WORKDAY
  | GREENHOUSE
  | LEVER
  | ICIMS
  | TALEO
  | BAMBOO_HR
  | JOBVITE
  | SMART_RECRUITERS
  | ASHBY
  | UNKNOWN
deriving DecidableEq

inductive JobOrigin where
  | ATS
  | LINKEDIN_NATIVE
deriving DecidableEq

inductive BlockReason where
  | LOGIN_REQUIRED
  | CAPTCHA_DETECTED
  | AUTHWALL
  | CHECKPOINT
  | RATE_LIMITED
  | NETWORK_ERROR
deriving DecidableEq

/-- Value strings of the BlockReason str-enum (schemas.py). -/
def blockReasonValue : BlockReason → String
  | .LOGIN_REQUIRED => "login_required"
  | .CAPTCHA_DETECTED => "captcha_detected"
  | .AUTHWALL => "authwall"
  | .CHECKPOINT => "checkpoint"
  | .RATE_LIMITED => "rate_limited"
  | .NETWORK_ERROR => "network_error"

/- ### A small regex engine covering the constructs used by the source's
   pattern tables: literal characters (including escaped dots), the class
   item `\d+`, and `.*`.  Python's `re.search` semantics: the pattern must
   match some contiguous substring.  `.` matches any character except a
   newline. -/

inductive Tok where
  | lit (c : Char)
  | digitPlus
  | dotStar
deriving DecidableEq

/-- Literal pattern fragment from a string. -/
def lits (s : String) : List Tok := s.data.map Tok.lit

/-- Suffixes reachable by consuming zero or more non-newline characters
    (the `.*` item). -/
def dotStarSuffixes : List Char → List (List Char)
  | [] => [[]]
  | c :: s => (c :: s) :: (if c == '\n' then [] else dotStarSuffixes s)

/-- Suffixes reachable by consuming one or more decimal digits
    (the `\d+` item). -/
def digitPlusSuffixes : List Char → List (List Char)
  | [] => []
  | c :: s => if c.isDigit then s :: digitPlusSuffixes s else []

/-- Does the token list match a prefix of the character list? -/
def matchHere : List Tok → List Char → Bool
  | [], _ => true
  | .lit _ :: _, [] => false
  | .lit c :: ts, c' :: s => c == c' && matchHere ts s
  | .digitPlus :: ts, s => (digitPlusSuffixes s).any (fun s' => matchHere ts s')
  | .dotStar :: ts, s => (dotStarSuffixes s).any (fun s' => matchHere ts s')

/-- All suffixes of a character list (candidate match start positions). -/
def allSuffixes : List Char → List (List Char)
  | [] => [[]]
  | c :: s => (c :: s) :: allSuffixes s

/-- Python `re.search(pattern, s) is not None`: the pattern matches at
    some start position. -/
def reSearch (toks : List Tok) (s : List Char) : Bool :=
  (allSuffixes s).any (fun s' => matchHere toks s')

/-- Python `str.lower()` restricted to the ASCII range the source's URLs
    and company names use. -/
def pyLower (s : String) : String := ⟨s.data.map Char.toLower⟩

/- ### Provider registry (src/ats_detector.py) -/

/-- ATS_URL_PATTERNS (ats_detector.py lines 7-50): ordered mapping from
    provider to regex pattern list; Python dicts iterate in insertion
    order, so a list of pairs preserves the table order. -/
def ATS_URL_PATTERNS : List (ATSProvider × List (List Tok)) :=
  [ (ATSProvider.WORKDAY,
      [ lits ("myworkdayjobs.com"),
        lits ("wd") ++ [Tok.digitPlus] ++ lits (".myworkdaysite.com"),
        lits ("wd") ++ [Tok.digitPlus] ++ lits (".myworkdayjobs.com"),
        lits ("workday.com/") ++ [Tok.dotStar] ++ lits ("careers"),
        lits (".wd") ++ [Tok.digitPlus] ++ lits (".") ]),
    (ATSProvider.GREENHOUSE,
      [ lits ("boards.greenhouse.io"),
        lits ("job-boards.greenhouse.io"),
        lits ("greenhouse.io/") ++ [Tok.dotStar] ++ lits ("embed") ]),
    (ATSProvider.LEVER,
      [ lits ("jobs.lever.co"),
        lits ("lever.co/") ++ [Tok.dotStar] ++ lits ("apply") ]),
    (ATSProvider.ICIMS,
      [ lits ("careers-") ++ [Tok.dotStar] ++ lits (".icims.com"),
        lits ("icims.com"),
        lits ("jobs.") ++ [Tok.dotStar] ++ lits (".com/") ++ [Tok.dotStar] ++ lits ("icims") ]),
    (ATSProvider.TALEO,
      [ lits ("taleo.net"),
        lits ("oracle.com/") ++ [Tok.dotStar] ++ lits ("taleo"),
        lits ("taleo.com") ]),
    (ATSProvider.BAMBOO_HR,
      [ [Tok.dotStar] ++ lits (".bamboohr.com/careers"),
        [Tok.dotStar] ++ lits (".bamboohr.com/jobs") ]),
    (ATSProvider.JOBVITE,
      [ lits ("jobs.jobvite.com"),
        [Tok.dotStar] ++ lits (".jobvite.com") ]),
    (ATSProvider.SMART_RECRUITERS,
      [ lits ("jobs.smartrecruiters.com"),
        lits ("careers.smartrecruiters.com") ]),
    (ATSProvider.ASHBY,
      [ lits ("jobs.ashbyhq.com"),
        [Tok.dotStar] ++ lits (".ashbyhq.com") ]) ]

/-- First table entry one of whose patterns matches; shared shape of the
    nested loops in detect_ats_from_url and detect_block_from_url. -/
def firstMatching {α : Type} : List (α × List (List Tok)) → List Char → Option α
  | [], _ => none
  | (a, pats) :: rest, s =>
      if pats.any (fun pat => reSearch pat s) then some a else firstMatching rest s

/-- detect_ats_from_url (ats_detector.py lines 53-65). -/
def detect_ats_from_url (url : String) : ATSProvider :=
  if url = "" then ATSProvider.UNKNOWN
  else
    match firstMatching ATS_URL_PATTERNS (pyLower url).data with
    | some p => p
    | none => ATSProvider.UNKNOWN

/-- Scheme/netloc split of urllib.parse.urlparse, for the absolute URLs
    the pipeline passes: the part before "://" is the scheme, the part
    after it up to the first slash is the netloc. -/
def splitSchemeAux : List Char → Option (List Char × List Char)
  | ':' :: '/' :: '/' :: rest => some ([], rest)
  | [] => none
  | c :: rest => (splitSchemeAux rest).map (fun pr => (c :: pr.1, pr.2))

/-- extract_career_page_base_url (ats_detector.py lines 77-92).  Both the
    pattern-match branch and the netloc fallback branch of the source
    return the same scheme-plus-netloc string, so the pattern loop
    collapses; None is returned exactly when the netloc is empty (no
    scheme separator in the URL) or the input is empty. -/
def extract_career_page_base_url (apply_url : String) : Option String :=
  if apply_url = "" then none
  else
    match splitSchemeAux apply_url.data with
    | none => none
    | some (scheme, rest) =>
        let netloc : List Char := rest.takeWhile (fun c => !(c == '/'))
        if netloc.isEmpty then none
        else some (⟨scheme⟩ ++ "://" ++ (⟨netloc⟩ : String))

/- ### Block monitor (LinkedIn-scraper/network_interceptor.py) -/

/-- BLOCK_URL_PATTERNS (network_interceptor.py lines 43-64), in insertion
    order of the source dict. -/
def BLOCK_URL_PATTERNS : List (BlockReason × List (List Tok)) :=
  [ (BlockReason.LOGIN_REQUIRED,
      [ lits ("/login"), lits ("/signin"), lits ("/sign-in"), lits ("/uas/login") ]),
    (BlockReason.AUTHWALL,
      [ lits ("/authwall"), lits ("/auth-wall") ]),
    (BlockReason.CHECKPOINT,
      [ lits ("/checkpoint"), lits ("/security-check") ]),
    (BlockReason.CAPTCHA_DETECTED,
      [ lits ("/captcha"), lits ("/challenge"), lits ("/security-verification"),
        lits ("challenge.linkedin.com") ]) ]

/-- LINKEDIN_API_PATTERNS (network_interceptor.py lines 32-41). -/
def LINKEDIN_API_PATTERNS : List (List Tok) :=
  [ lits ("/voyager/api/jobs/jobPostings"),
    lits ("/voyager/api/jobs/jobDetails"),
    lits ("/voyager/api/graphql") ++ [Tok.dotStar] ++ lits ("job"),
    lits ("/voyager/api/entities/companies"),
    lits ("/jobs-guest/jobs/api/"),
    lits ("/jobs/api/"),
    lits ("/voyager/api/search/dash"),
    lits ("/voyager/api/jobs/search") ]

/-- matches_linkedin_api (network_interceptor.py lines 67-72).  Note the
    source does not lower-case here. -/
def matches_linkedin_api (url : String) : Bool :=
  LINKEDIN_API_PATTERNS.any (fun pat => reSearch pat url.data)

/-- detect_block_from_url (network_interceptor.py lines 75-82). -/
def detect_block_from_url (url : String) : Option BlockReason :=
  firstMatching BLOCK_URL_PATTERNS (pyLower url).data

/-- Observed network event: the response's URL and status; headers are
    reduced to the only fact the source reads from them, whether the
    content type is application/json. -/
structure NetEvent where
  url : String
  status : Nat
  contentTypeJson : Bool
deriving DecidableEq

/-- detect_block_from_response (network_interceptor.py lines 85-96). -/
def detect_block_from_response (ev : NetEvent) : Option BlockReason :=
  if ev.status == 429 then some BlockReason.RATE_LIMITED
  else if ev.status == 401 || ev.status == 403 then some BlockReason.LOGIN_REQUIRED
  else detect_block_from_url ev.url


/- ### Schemas (LinkedIn-scraper/schemas.py) -/

/-- ScraperState (schemas.py lines 30-38); last_request_time elided. -/
structure ScraperState where
  is_blocked : Bool := false
  block_reason : Option BlockReason := none
  jobs_collected : Nat := 0
  api_responses_captured : Nat := 0
  requests_made : Nat := 0
  errors : List String := []
deriving DecidableEq

/-- JobPosting (schemas.py lines 54-72); the description, date and
    easy-apply fields, which no pipeline transition reads, are elided. -/
structure JobPosting where
  job_id : String
  title : String
  company_name : String
  location : Option String := none
  source_url : String := ""
  apply_url : Option String := none
  ats_provider : Option ATSProvider := none
  job_origin : JobOrigin := JobOrigin.LINKEDIN_NATIVE
  external_apply : Bool := false
  extraction_method : String := "api"
deriving DecidableEq

/-- ATSCompanyInfo (schemas.py lines 110-117); company_slug and
    last_fetched elided. -/
structure ATSCompanyInfo where
  company_name : String
  ats_provider : ATSProvider
  ats_base_url : String
  job_count : Nat := 0
deriving DecidableEq

/-- PipelineResult (schemas.py lines 120-127); ats_companies is a dict in
    insertion order, modelled as an association list; completed_at
    elided. -/
structure PipelineResult where
  jobs : List JobPosting := []
  ats_companies : List (String × ATSCompanyInfo) := []
  linkedin_native_companies : List String := []
  scraper_state : ScraperState := {}
  errors : List String := []
deriving DecidableEq

/- ### Origin classifier (LinkedIn-scraper/linkedin_scraper.py) -/

/-- Truthiness of a Python Optional[str]: None and the empty string are
    falsy. -/
def optStrTruthy : Option String → Bool
  | none => false
  | some s => !(s == "")

/-- Origin classification computed in LinkedInScraper._parse_api_job
    (linkedin_scraper.py lines 282-284): job_origin starts
    LINKEDIN_NATIVE and becomes ATS when external_apply holds,
    ats_provider is not None, and ats_provider is not UNKNOWN. -/
def classifyOrigin (external_apply : Bool) (ats_provider : Option ATSProvider) : JobOrigin :=
  if external_apply && ats_provider.isSome && !(ats_provider == some ATSProvider.UNKNOWN) then
    JobOrigin.ATS
  else JobOrigin.LINKEDIN_NATIVE

/- ### Network interception state machine
   (setup_network_interception.handle_response, network_interceptor.py
   lines 99-158).  The captured JSON bodies are reduced to the lengths of
   the lists the source appends them to; the on-block callback
   (on_block_detected, which the pipeline chains to the user-registered
   callback) is recorded as the list of reasons it was invoked with. -/

structure InterceptState where
  scraper_state : ScraperState := {}
  jobs_api_responses : Nat := 0
  job_details : Nat := 0
  onBlockInvocations : List BlockReason := []
deriving DecidableEq

/-- handle_response (network_interceptor.py lines 108-156). -/
def handleResponse (s : InterceptState) (ev : NetEvent) : InterceptState :=
  let s := { s with scraper_state :=
    { s.scraper_state with requests_made := s.scraper_state.requests_made + 1 } }
  match detect_block_from_response ev with
  | some reason =>
      { s with
        scraper_state := { s.scraper_state with
          is_blocked := true, block_reason := some reason },
        onBlockInvocations := s.onBlockInvocations ++ [reason] }
  | none =>
      if !(matches_linkedin_api ev.url) then s
      else if ev.status == 200 && ev.contentTypeJson then
        let s := { s with scraper_state := { s.scraper_state with
          api_responses_captured := s.scraper_state.api_responses_captured + 1 } }
        if reSearch (lits ("/jobDetails")) ev.url.data ||
            reSearch (lits ("jobPosting")) ev.url.data then
          { s with job_details := s.job_details + 1 }
        else
          { s with jobs_api_responses := s.jobs_api_responses + 1 }
      else s

/-- The response events of a run, observed in order. -/
def processEvents (s : InterceptState) (evs : List NetEvent) : InterceptState :=
  evs.foldl handleResponse s

/- ### Pipeline orchestrator model (LinkedIn-scraper/job_pipeline.py).
   The orchestrator's mutable attributes and the discovery scraper's own
   state object are carried explicitly; before _finalize_result they are
   distinct objects in the source, and the model keeps them as separate
   fields.  The user callback registered through set_block_callback is
   recorded as the list of reasons it was invoked with. -/

structure RunModel where
  scraperState : ScraperState := {}
  result : PipelineResult := {}
  seen_job_ids : List String := []
  companies_processed : List String := []
  callbackLog : List BlockReason := []
deriving DecidableEq

def initRunModel : RunModel := {}

/-- JobIngestionPipeline._get_job_key (job_pipeline.py lines 248-250). -/
def get_job_key (job : JobPosting) : String :=
  pyLower job.company_name ++ ":" ++ job.job_id

/-- JobIngestionPipeline._add_job (job_pipeline.py lines 236-246). -/
def add_job (m : RunModel) (job : JobPosting) : RunModel × Bool :=
  let job_key := get_job_key job
  if job_key ∈ m.seen_job_ids then (m, false)
  else
    ({ m with
        seen_job_ids := job_key :: m.seen_job_ids,
        result := { m.result with
          jobs := m.result.jobs ++ [job],
          scraper_state := { m.result.scraper_state with
            jobs_collected := m.result.scraper_state.jobs_collected + 1 } } },
     true)

def addAllJobs (m : RunModel) (jobs : List JobPosting) : RunModel :=
  jobs.foldl (fun mm j => (add_job mm j).1) m

/-- The block chain during discovery: the network interceptor writes the
    scraper's state (network_interceptor.py lines 117-119), then
    LinkedInScraper._handle_block writes it again (linkedin_scraper.py
    lines 101-107), then JobIngestionPipeline._handle_block
    (job_pipeline.py lines 98-105) writes the pipeline result's state,
    appends an error entry, and invokes the user callback. -/
def handleBlockChain (m : RunModel) (reason : BlockReason) : RunModel :=
  { m with
    scraperState := { m.scraperState with
      is_blocked := true, block_reason := some reason },
    result := { m.result with
      scraper_state := { m.result.scraper_state with
        is_blocked := true, block_reason := some reason },
      errors := m.result.errors ++ ["Blocked: " ++ blockReasonValue reason] },
    callbackLog := m.callbackLog ++ [reason] }

/-- One discovery step: the scraper yields a parsed posting
    (LinkedInScraper.search_jobs), and blockDuring records a block
    classified from the traffic handled while producing it, firing the
    block chain before the orchestrator's per-item check. -/
structure DiscStep where
  job : JobPosting
  blockDuring : Option BlockReason := none
deriving DecidableEq

/-- LinkedInScraper.search_jobs increments state.jobs_collected once per
    yielded posting (linkedin_scraper.py line 192). -/
def bumpScraperCollected (m : RunModel) : RunModel :=
  { m with scraperState := { m.scraperState with
    jobs_collected := m.scraperState.jobs_collected + 1 } }

def applyBlockDuring (m : RunModel) : Option BlockReason → RunModel
  | none => m
  | some r => handleBlockChain m r

/-- Phase 1 (job_pipeline.py lines 145-154): consume the discovery
    sequence; after appending each posting, check the blocked flag and
    stop consuming if it is set (the scraper's own per-yield checks also
    stop the generator once blocked, so nothing is yielded past a
    block). -/
def runDiscovery (m : RunModel) : List DiscStep → RunModel × List JobPosting
  | [] => (m, [])
  | st :: rest =>
      let m1 := bumpScraperCollected m
      let m2 := applyBlockDuring m1 st.blockDuring
      if m2.result.scraper_state.is_blocked then (m2, [st.job])
      else ((runDiscovery m2 rest).1, st.job :: (runDiscovery m2 rest).2)

/-- Append into the ordered per-company grouping dict
    (job_pipeline.py lines 171-173). -/
def assocAppend (groups : List (String × List JobPosting)) (key : String) (job : JobPosting) :
    List (String × List JobPosting) :=
  match groups with
  | [] => [(key, [job])]
  | (k, js) :: rest =>
      if k == key then (k, js ++ [job]) :: rest else (k, js) :: assocAppend rest key job

def insertIfAbsent (l : List String) (key : String) : List String :=
  if key ∈ l then l else l ++ [key]

/-- Phase 2 (job_pipeline.py lines 167-176): partition by company key;
    ATS-origin candidates with a truthy apply URL are grouped per
    company, everything else is recorded as a native company and added to
    the result at once. -/
def classifyPhase (m : RunModel) (groups : List (String × List JobPosting))
    (native : List String) :
    List JobPosting → RunModel × List (String × List JobPosting) × List String
  | [] => (m, groups, native)
  | job :: rest =>
      let company_key := pyLower job.company_name
      if job.job_origin == JobOrigin.ATS && optStrTruthy job.apply_url then
        classifyPhase m (assocAppend groups company_key job) native rest
      else
        classifyPhase (add_job m job).1 groups (insertIfAbsent native company_key) rest

/-- Outcome of consuming ATSScraper.scrape_company for one company: the
    postings yielded before the generator finished or raised, and the
    raised exception's message when it raised. -/
structure FetchOutcome where
  yielded : List JobPosting := []
  error : Option String := none

def appendResultError (m : RunModel) (e : String) : RunModel :=
  { m with result := { m.result with errors := m.result.errors ++ [e] } }

/-- The except-branch of phase 3 (job_pipeline.py lines 212-214). -/
def withAtsFetchError (m : RunModel) (company_name : String) : Option String → RunModel
  | none => m
  | some e => appendResultError m ("ATS error (" ++ company_name ++ "): " ++ e)

def assocPut (l : List (String × ATSCompanyInfo)) (key : String) (v : ATSCompanyInfo) :
    List (String × ATSCompanyInfo) :=
  match l with
  | [] => [(key, v)]
  | (k, w) :: rest => if k == key then (k, v) :: rest else (k, w) :: assocPut rest key v

def markProcessed (m : RunModel) (key : String) : RunModel :=
  { m with companies_processed := key :: m.companies_processed }

def putAtsCompany (m : RunModel) (key : String) (info : ATSCompanyInfo) : RunModel :=
  { m with result := { m.result with
    ats_companies := assocPut m.result.ats_companies key info } }

/-- Phase 3 (job_pipeline.py lines 184-226): per-company ATS retrieval.
    Postings yielded before an exception have already been added and
    counted; the fallback that re-adds the discovery-time candidates runs
    only when the count is zero. -/
def fetchPhase (fetch : String → String → FetchOutcome) (m : RunModel) :
    List (String × List JobPosting) → RunModel
  | [] => m
  | (company_key, company_jobs) :: rest =>
      if m.result.scraper_state.is_blocked then m
      else if company_key ∈ m.companies_processed then fetchPhase fetch m rest
      else
        match company_jobs with
        | [] => fetchPhase fetch m rest
        | representative_job :: _ =>
            if !(optStrTruthy representative_job.apply_url) ||
                representative_job.ats_provider.isNone then
              fetchPhase fetch (addAllJobs m company_jobs) rest
            else
              let apply_url := representative_job.apply_url.getD ""
              let outcome := fetch apply_url representative_job.company_name
              let m1 := addAllJobs m outcome.yielded
              let ats_job_count := outcome.yielded.length
              let m2 := withAtsFetchError m1 representative_job.company_name outcome.error
              if 0 < ats_job_count then
                let info : ATSCompanyInfo :=
                  { company_name := representative_job.company_name,
                    ats_provider := representative_job.ats_provider.getD ATSProvider.UNKNOWN,
                    ats_base_url := (extract_career_page_base_url apply_url).getD "",
                    job_count := ats_job_count }
                fetchPhase fetch (markProcessed (putAtsCompany m2 company_key info) company_key) rest
              else
                fetchPhase fetch (addAllJobs m2 company_jobs) rest

/-- The else-branch of phase 3 (job_pipeline.py lines 227-230): when ATS
    fetching is disabled or the run is already blocked, every grouped
    candidate is added to the result directly. -/
def addGroups (m : RunModel) (groups : List (String × List JobPosting)) : RunModel :=
  groups.foldl (fun mm kv => addAllJobs mm kv.2) m

def setNativeCompanies (m : RunModel) (native : List String) : RunModel :=
  { m with result := { m.result with linkedin_native_companies := native } }

/-- JobIngestionPipeline._finalize_result (job_pipeline.py lines 252-257):
    the result's scraper state is replaced wholesale by the discovery
    scraper's own state object. -/
def finalize_result (m : RunModel) : RunModel :=
  { m with result := { m.result with scraper_state := m.scraperState } }

/-- JobIngestionPipeline.run (job_pipeline.py lines 107-234) without the
    final snapshot; both return sites of the source call
    _finalize_result, so the full run is finalize_result of this core. -/
def runCore (fetch : String → String → FetchOutcome) (fetch_ats_jobs : Bool)
    (steps : List DiscStep) : RunModel :=
  let d := runDiscovery initRunModel steps
  if d.2.isEmpty then d.1
  else
    let c := classifyPhase d.1 [] [] d.2
    let m3 :=
      if fetch_ats_jobs && !(c.2.1.isEmpty) && !(c.1.result.scraper_state.is_blocked) then
        fetchPhase fetch c.1 c.2.1
      else addGroups c.1 c.2.1
    setNativeCompanies m3 c.2.2

def runPipeline (fetch : String → String → FetchOutcome) (fetch_ats_jobs : Bool)
    (steps : List DiscStep) : RunModel :=
  finalize_result (runCore fetch fetch_ats_jobs steps)

/- ### Rate governor (LinkedIn-scraper/linkedin_scraper.py) -/

/-- LinkedInScraper._rate_limit (linkedin_scraper.py lines 109-112): when
    rate_limit_ms is positive, sleep that many milliseconds; the duration
    does not depend on any recorded last-call timestamp. -/
def rateLimitSleepMs (rate_limit_ms : Nat) : Nat :=
  if 0 < rate_limit_ms then rate_limit_ms else 0

/-- Completion time (in milliseconds) of a _rate_limit call started at a
    given time. -/
def rateLimitComplete (rate_limit_ms start : Nat) : Nat :=
  start + rateLimitSleepMs rate_limit_ms

/-- Modelled from the spec: the Rate Governor mechanism the specification
    describes, tracking the last-call timestamp and sleeping only the
    remainder of the interval (min_interval minus the time already
    elapsed since the last call, truncated at zero). -/
def remainderSleepMs (min_interval elapsed : Nat) : Nat :=
  min_interval - elapsed

/- ### Specification-side helper -/

/-- First occurrence per dedup key of a posting sequence, relative to
    already-seen keys: the survivors _add_job appends. -/
def firstOccurrences (seen : List String) : List JobPosting → List JobPosting
  | [] => []
  | p :: ps =>
      if get_job_key p ∈ seen then firstOccurrences seen ps
      else p :: firstOccurrences (get_job_key p :: seen) ps

/- ### Concrete scenario inputs -/

/-- Discovery-time Acme posting 1, apply URL detected as Greenhouse, as
    _parse_api_job would build it. -/
def dAcme1 : JobPosting :=
  { job_id := "a1", title := "Engineer", company_name := "Acme",
    source_url := "https://www.linkedin.com/jobs/view/a1",
    apply_url := some ("https://boards.greenhouse.io/acme/jobs/1"),
    ats_provider := some (detect_ats_from_url ("https://boards.greenhouse.io/acme/jobs/1")),
    job_origin := classifyOrigin true
      (some (detect_ats_from_url ("https://boards.greenhouse.io/acme/jobs/1"))),
    external_apply := true, extraction_method := "api" }

/-- Discovery-time Acme posting 2. -/
def dAcme2 : JobPosting :=
  { job_id := "a2", title := "Designer", company_name := "Acme",
    source_url := "https://www.linkedin.com/jobs/view/a2",
    apply_url := some ("https://boards.greenhouse.io/acme/jobs/2"),
    ats_provider := some (detect_ats_from_url ("https://boards.greenhouse.io/acme/jobs/2")),
    job_origin := classifyOrigin true
      (some (detect_ats_from_url ("https://boards.greenhouse.io/acme/jobs/2"))),
    external_apply := true, extraction_method := "api" }

/-- Discovery-time Tiny Co posting, no external apply URL. -/
def dTiny : JobPosting :=
  { job_id := "t1", title := "Generalist", company_name := "Tiny Co",
    source_url := "https://www.linkedin.com/jobs/view/t1",
    apply_url := none, ats_provider := none,
    job_origin := classifyOrigin false none,
    external_apply := false, extraction_method := "api" }

/-- An Acme posting as the Greenhouse fetch client normalizes it. -/
def mkAcmeFetched (i : String) : JobPosting :=
  { job_id := i, title := "Acme role " ++ i, company_name := "Acme",
    source_url := "https://boards.greenhouse.io/acme/jobs/" ++ i,
    apply_url := some ("https://boards.greenhouse.io/acme/jobs/" ++ i),
    ats_provider := some ATSProvider.GREENHOUSE,
    job_origin := JobOrigin.ATS, external_apply := true,
    extraction_method := "ats_api" }

/-- The fetched Acme posting sharing its job id with dAcme1. -/
def fAcme1 : JobPosting := mkAcmeFetched "a1"

def fAcme2 : JobPosting := mkAcmeFetched "b2"

def fAcme3 : JobPosting := mkAcmeFetched "b3"

def fAcme4 : JobPosting := mkAcmeFetched "b4"

def fAcme5 : JobPosting := mkAcmeFetched "b5"

/-- Greenhouse fetch client of the end-to-end scenario: five postings for
    Acme, one of which shares its id with a discovery-time posting. -/
def ghFetch : String → String → FetchOutcome :=
  fun _ name =>
    if name == "Acme" then { yielded := [fAcme1, fAcme2, fAcme3, fAcme4, fAcme5] } else {}

def c3steps : List DiscStep :=
  [{ job := dAcme1 }, { job := dAcme2 }, { job := dTiny }]

/-- The end-to-end scenario run of spec section 8, property 8. -/
def runC3 : RunModel := runPipeline ghFetch true c3steps

/-- A fetch client that yields one posting and then raises. -/
def fetchBoom : String → String → FetchOutcome :=
  fun _ _ => { yielded := [fAcme2], error := some "boom" }

/-- A fetch client that raises before yielding anything. -/
def fetchBoomEmpty : String → String → FetchOutcome :=
  fun _ _ => { error := some "boom" }

/-- Run in which Acme's fetch yields one posting and then raises. -/
def runC2cex : RunModel := runPipeline fetchBoom true [{ job := dAcme1 }, { job := dAcme2 }]

/-- A rate-limited response event. -/
def ev429 : NetEvent :=
  { url := "https://www.linkedin.com/jobs/search?keywords=x", status := 429,
    contentTypeJson := false }

/-- A native discovery step with distinct id and company per index. -/
def mkNativeStep (i : String) : DiscStep :=
  { job := { job_id := i, title := "T" ++ i, company_name := "Co" ++ i,
             source_url := "https://www.linkedin.com/jobs/view/" ++ i,
             apply_url := none, ats_provider := none,
             job_origin := classifyOrigin false none,
             external_apply := false, extraction_method := "api" } }

def c8pre : List DiscStep := [mkNativeStep "1", mkNativeStep "2", mkNativeStep "3"]

/-- The fourth candidate, during whose production a block is classified. -/
def c8blockStep : DiscStep := { mkNativeStep "4" with blockDuring := some BlockReason.AUTHWALL }

def c8post : List DiscStep :=
  [mkNativeStep "5", mkNativeStep "6", mkNativeStep "7", mkNativeStep "8",
   mkNativeStep "9", mkNativeStep "10"]

/-- A fetch client that returns nothing. -/
def noFetch : String → String → FetchOutcome := fun _ _ => {}

/-- Two postings with the same composite dedup key
    (company name compared case-insensitively) and different contents. -/
def wDup1 : JobPosting := { job_id := "1", title := "first", company_name := "Acme" }

def wDup2 : JobPosting := { job_id := "1", title := "second", company_name := "ACME" }

/- ### Generic characterization of the nested pattern loops -/

theorem firstMatching_eq_find? {α : Type} (l : List (α × List (List Tok))) (s : List Char) :
    firstMatching l s
      = (l.find? (fun e => e.2.any (fun pat => reSearch pat s))).map Prod.fst := by
  induction l with
  | nil => rfl
  | cons e rest ih =>
      obtain ⟨a, pats⟩ := e
      simp only [firstMatching, List.find?_cons]
      by_cases h : pats.any (fun pat => reSearch pat s) = true
      · simp [h]
      · simp only [Bool.not_eq_true] at h
        simp [h, ih]

/- ### Claim theorems: provider detection, block classification,
   origin classification, rate governor -/

/-- C6: provider detection is total and deterministic — UNKNOWN on empty
    input and when no registered pattern matches, otherwise the first
    provider in table registration order one of whose patterns matches
    the lower-cased URL; with the four table-driven instances. -/
theorem detect_ats_first_provider_wins :
    (∀ url : String,
        detect_ats_from_url url =
          if url = "" then ATSProvider.UNKNOWN
          else
            ((ATS_URL_PATTERNS.find?
                (fun e => e.2.any (fun pat => reSearch pat (pyLower url).data))).map
              Prod.fst).getD ATSProvider.UNKNOWN)
    ∧ detect_ats_from_url ("") = ATSProvider.UNKNOWN
    ∧ detect_ats_from_url ("https://boards.greenhouse.io/acme/jobs/123") = ATSProvider.GREENHOUSE
    ∧ detect_ats_from_url ("https://jobs.lever.co/acme") = ATSProvider.LEVER
    ∧ detect_ats_from_url ("https://acme.wd5.myworkdayjobs.com/en-US/x") = ATSProvider.WORKDAY
    ∧ detect_ats_from_url ("https://linkedin.com/jobs/view/1") = ATSProvider.UNKNOWN := by
  refine ⟨fun url => ?_, by decide, by decide, by decide, by decide, by decide⟩
  unfold detect_ats_from_url
  by_cases h : url = ""
  · simp [h]
  · simp only [h, if_false]
    rw [firstMatching_eq_find?]
    cases ATS_URL_PATTERNS.find?
        (fun e => e.2.any (fun pat => reSearch pat (pyLower url).data)) <;> rfl

/-- C7: block classification follows the stated priority — status 429,
    then 401 or 403, then the URL taxonomy in table order — and the four
    URL-classifier instances hold. -/
theorem block_classification_priority :
    (∀ ev : NetEvent,
        detect_block_from_response ev =
          if ev.status == 429 then some BlockReason.RATE_LIMITED
          else if ev.status == 401 || ev.status == 403 then some BlockReason.LOGIN_REQUIRED
          else detect_block_from_url ev.url)
    ∧ (∀ url : String,
        detect_block_from_url url =
          (BLOCK_URL_PATTERNS.find?
              (fun e => e.2.any (fun pat => reSearch pat (pyLower url).data))).map
            Prod.fst)
    ∧ detect_block_from_url ("https://x.com/login") = some BlockReason.LOGIN_REQUIRED
    ∧ detect_block_from_url ("https://x.com/authwall") = some BlockReason.AUTHWALL
    ∧ detect_block_from_url ("https://x.com/checkpoint/challenge") = some BlockReason.CHECKPOINT
    ∧ detect_block_from_url ("https://x.com/jobs/search") = none := by
  exact ⟨fun ev => rfl, fun url => firstMatching_eq_find? _ _,
    by decide, by decide, by decide, by decide⟩

/-- C5: the computed origin is ATS exactly when the posting has an
    external apply URL and a detected provider other than UNKNOWN; with
    the three table-driven instances. -/
theorem classify_origin_correct :
    (∀ (b : Bool) (p : Option ATSProvider),
        classifyOrigin b p = JobOrigin.ATS
          ↔ b = true ∧ p ≠ none ∧ p ≠ some ATSProvider.UNKNOWN)
    ∧ classifyOrigin true (some ATSProvider.GREENHOUSE) = JobOrigin.ATS
    ∧ classifyOrigin false (some ATSProvider.UNKNOWN) = JobOrigin.LINKEDIN_NATIVE
    ∧ classifyOrigin true (some ATSProvider.UNKNOWN) = JobOrigin.LINKEDIN_NATIVE := by
  refine ⟨?_, by decide, by decide, by decide⟩
  intro b p
  cases b <;> rcases p with _ | pr <;> simp [classifyOrigin]

/-- C5 witness: a concrete provider classifies as ATS through the
    characterization. -/
theorem classify_origin_correct_witness :
    classifyOrigin true (some ATSProvider.LEVER) = JobOrigin.ATS :=
  (classify_origin_correct.1 true (some ATSProvider.LEVER)).mpr
    ⟨rfl, by decide, by decide⟩

/-- C9 counterexample: at min_interval 2000 ms with 1500 ms already
    elapsed since the previous call, the source sleeps the full 2000 ms
    rather than the 500 ms remainder, so a second call started 1500 ms
    after the first completes at 3500 ms where the spec's
    remainder-tracking governor would complete at 2000 ms: the code does
    not track a last-call timestamp and sleep the remainder. -/
theorem rate_governor_full_sleep_cex :
    rateLimitSleepMs 2000 = 2000
    ∧ remainderSleepMs 2000 1500 = 500
    ∧ (rateLimitSleepMs 2000 == remainderSleepMs 2000 1500) = false
    ∧ rateLimitComplete 2000 1500 = 3500
    ∧ 1500 + remainderSleepMs 2000 1500 = 2000
    ∧ (rateLimitComplete 2000 1500 == 1500 + remainderSleepMs 2000 1500) = false := by
  decide

/-- C9 (amended): between the completions of two consecutive sequential
    _rate_limit calls at least rate_limit_ms elapses, because every call
    sleeps the full interval (no last-call timestamp is tracked and no
    remainder is computed). -/
theorem rate_governor_min_interval (rate_limit_ms s1 s2 : Nat)
    (h : rateLimitComplete rate_limit_ms s1 ≤ s2) :
    rateLimitComplete rate_limit_ms s1 + rate_limit_ms
      ≤ rateLimitComplete rate_limit_ms s2 := by
  unfold rateLimitComplete rateLimitSleepMs at h ⊢
  by_cases hc : 0 < rate_limit_ms <;> simp [hc] at h ⊢ <;> omega

/-- C9 witness: two sequential calls at min_interval 2000 ms. -/
theorem rate_governor_min_interval_witness :
    rateLimitComplete 2000 0 + 2000 ≤ rateLimitComplete 2000 2500 :=
  rate_governor_min_interval 2000 0 2500 (by decide)

/- ### Block monitor run behaviour -/

theorem handleResponse_classified (s : InterceptState) (ev : NetEvent) (r : BlockReason)
    (h : detect_block_from_response ev = some r) :
    (handleResponse s ev).onBlockInvocations = s.onBlockInvocations ++ [r]
    ∧ (handleResponse s ev).scraper_state.is_blocked = true
    ∧ (handleResponse s ev).scraper_state.block_reason = some r := by
  simp [handleResponse, h]

theorem handleResponse_not_classified (s : InterceptState) (ev : NetEvent)
    (h : detect_block_from_response ev = none) :
    (handleResponse s ev).onBlockInvocations = s.onBlockInvocations
    ∧ (handleResponse s ev).scraper_state.is_blocked = s.scraper_state.is_blocked
    ∧ (handleResponse s ev).scraper_state.block_reason = s.scraper_state.block_reason := by
  simp only [handleResponse, h]
  repeat' split
  all_goals exact ⟨rfl, rfl, rfl⟩

/-- C4 (amended): the first classified event sets is_blocked and the
    block reason and invokes the on-block callback, but the callback is
    re-invoked on every later classified event as well (once per
    classified event, with the reason overwritten each time); is_blocked
    itself is monotone — true exactly once some event classifies, and
    never reset. -/
theorem block_monitor_amended (s : InterceptState) (evs : List NetEvent) :
    (processEvents s evs).onBlockInvocations
        = s.onBlockInvocations ++ evs.filterMap detect_block_from_response
    ∧ (processEvents s evs).scraper_state.is_blocked
        = (s.scraper_state.is_blocked
            || evs.any (fun e => (detect_block_from_response e).isSome))
    ∧ (processEvents s evs).scraper_state.block_reason
        = (evs.filterMap detect_block_from_response).foldl (fun _ r => some r)
            s.scraper_state.block_reason := by
  induction evs generalizing s with
  | nil => simp [processEvents]
  | cons ev evs ih =>
      have hstep : processEvents s (ev :: evs) = processEvents (handleResponse s ev) evs := rfl
      cases h : detect_block_from_response ev with
      | some r =>
          obtain ⟨h1, h2, h3⟩ := handleResponse_classified s ev r h
          obtain ⟨i1, i2, i3⟩ := ih (handleResponse s ev)
          exact ⟨by rw [hstep, i1, h1]; simp [h],
                 by rw [hstep, i2, h2]; simp [h],
                 by rw [hstep, i3, h3]; simp [h]⟩
      | none =>
          obtain ⟨h1, h2, h3⟩ := handleResponse_not_classified s ev h
          obtain ⟨i1, i2, i3⟩ := ih (handleResponse s ev)
          exact ⟨by rw [hstep, i1, h1]; simp [h],
                 by rw [hstep, i2, h2]; simp [h],
                 by rw [hstep, i3, h3]; simp [h]⟩

/-- C4 counterexample: after a first rate-limited response the run is
    already blocked, yet a second identical classified event re-invokes
    the on-block callback — the callback fires twice, not at most
    once. -/
theorem block_callback_reinvoked_cex :
    (processEvents {} [ev429]).scraper_state.is_blocked = true
    ∧ (processEvents {} [ev429, ev429]).onBlockInvocations
        = [BlockReason.RATE_LIMITED, BlockReason.RATE_LIMITED]
    ∧ 1 < (processEvents {} [ev429, ev429]).onBlockInvocations.length := by
  decide

/- ### Dedup index behaviour (C1) -/

theorem add_job_scraperState (m : RunModel) (j : JobPosting) :
    (add_job m j).1.scraperState = m.scraperState := by
  simp only [add_job]
  split <;> rfl

theorem addAllJobs_cons (m : RunModel) (p : JobPosting) (ps : List JobPosting) :
    addAllJobs m (p :: ps) = addAllJobs (add_job m p).1 ps := rfl

theorem addAllJobs_nil (m : RunModel) : addAllJobs m [] = m := rfl

theorem add_job_mem (m : RunModel) (p : JobPosting)
    (h : get_job_key p ∈ m.seen_job_ids) : add_job m p = (m, false) := by
  simp only [add_job]
  rw [if_pos h]

theorem add_job_not_mem (m : RunModel) (p : JobPosting)
    (h : get_job_key p ∉ m.seen_job_ids) :
    add_job m p =
      ({ m with
          seen_job_ids := get_job_key p :: m.seen_job_ids,
          result := { m.result with
            jobs := m.result.jobs ++ [p],
            scraper_state := { m.result.scraper_state with
              jobs_collected := m.result.scraper_state.jobs_collected + 1 } } },
        true) := by
  simp only [add_job]
  rw [if_neg h]

theorem addAllJobs_jobs (ps : List JobPosting) : ∀ m : RunModel,
    (addAllJobs m ps).result.jobs
      = m.result.jobs ++ firstOccurrences m.seen_job_ids ps := by
  induction ps with
  | nil => intro m; simp [addAllJobs, firstOccurrences]
  | cons p ps ih =>
      intro m
      rw [addAllJobs_cons]
      by_cases h : get_job_key p ∈ m.seen_job_ids
      · rw [add_job_mem m p h]
        rw [ih]
        simp [firstOccurrences, h]
      · rw [add_job_not_mem m p h]
        rw [ih]
        simp [firstOccurrences, h]

theorem firstOccurrences_filter (k : String) (ps : List JobPosting) :
    ∀ seen : List String,
      (firstOccurrences seen ps).filter (fun p => get_job_key p == k)
        = if k ∈ seen then [] else (ps.find? (fun p => get_job_key p == k)).toList := by
  induction ps with
  | nil => intro seen; simp [firstOccurrences]
  | cons p ps ih =>
      intro seen
      by_cases hmem : get_job_key p ∈ seen <;> by_cases hpk : get_job_key p = k <;>
        by_cases hk : k ∈ seen <;>
        simp_all [firstOccurrences, List.filter_cons, List.find?_cons, List.mem_cons]
      intro heq
      exact absurd heq.symm hpk

/-- C1: for every sequence of postings added through the dedup index, at
    most one posting per composite key (lower-cased company name with job
    id) survives in the result, the survivor is the first-added one, the
    first add of a key inserts the posting and returns true, and every
    later add of an already-seen key returns false and leaves the whole
    pipeline state unchanged — independently of which call path performs
    the add. -/
theorem dedup_first_seen_wins (ps : List JobPosting) (k : String) :
    ((addAllJobs initRunModel ps).result.jobs.filter
        (fun p => get_job_key p == k)).length ≤ 1
    ∧ (addAllJobs initRunModel ps).result.jobs.filter (fun p => get_job_key p == k)
        = (ps.find? (fun p => get_job_key p == k)).toList
    ∧ (∀ (m : RunModel) (p : JobPosting),
        get_job_key p ∈ m.seen_job_ids → add_job m p = (m, false))
    ∧ (∀ (m : RunModel) (p : JobPosting),
        get_job_key p ∉ m.seen_job_ids →
          (add_job m p).2 = true
          ∧ (add_job m p).1.result.jobs = m.result.jobs ++ [p]) := by
  have hinit1 : initRunModel.result.jobs = [] := rfl
  have hinit2 : initRunModel.seen_job_ids = [] := rfl
  have hmain : (addAllJobs initRunModel ps).result.jobs.filter
      (fun p => get_job_key p == k) = (ps.find? (fun p => get_job_key p == k)).toList := by
    rw [addAllJobs_jobs, hinit1, hinit2, List.nil_append, firstOccurrences_filter]
    simp
  refine ⟨?_, hmain, fun m p h => add_job_mem m p h, fun m p h => ?_⟩
  · rw [hmain]
    cases ps.find? (fun p => get_job_key p == k) <;> simp
  · rw [add_job_not_mem m p h]
    exact ⟨rfl, rfl⟩

/-- C1 witness: two postings with the same key added in sequence — the
    first survives, the second add is rejected and is a no-op. -/
theorem dedup_first_seen_wins_witness :
    (addAllJobs initRunModel [wDup1, wDup2]).result.jobs.filter
        (fun p => get_job_key p == "acme:1") = [wDup1]
    ∧ add_job (addAllJobs initRunModel [wDup1]) wDup2
        = (addAllJobs initRunModel [wDup1], false) := by
  have h := dedup_first_seen_wins [wDup1, wDup2] "acme:1"
  exact ⟨h.2.1.trans (by decide),
    h.2.2.1 (addAllJobs initRunModel [wDup1]) wDup2 (by decide)⟩

/- ### ATS fetch fallback behaviour (C2) -/

/-- C2 (amended): when a company's fetch raises after yielding zero
    postings — or completes with zero postings — the orchestrator
    appends the error entry (if any) that references the company,
    re-adds the company's discovery-time candidates through the dedup
    index, and continues with the remaining company groups.  (When the
    fetch raises after at least one posting was yielded, the count is
    positive and this fallback branch is not taken.) -/
theorem ats_fetch_zero_yield_fallback
    (fetch : String → String → FetchOutcome) (m : RunModel) (company_key : String)
    (company_jobs : List JobPosting) (rest : List (String × List JobPosting))
    (representative_job : JobPosting) (tl : List JobPosting)
    (hb : m.result.scraper_state.is_blocked = false)
    (hp : company_key ∉ m.companies_processed)
    (hj : company_jobs = representative_job :: tl)
    (ht : optStrTruthy representative_job.apply_url = true)
    (hprov : representative_job.ats_provider.isNone = false)
    (hz : (fetch (representative_job.apply_url.getD "")
        representative_job.company_name).yielded = []) :
    fetchPhase fetch m ((company_key, company_jobs) :: rest)
      = fetchPhase fetch
          (addAllJobs
            (withAtsFetchError m representative_job.company_name
              (fetch (representative_job.apply_url.getD "")
                representative_job.company_name).error)
            company_jobs)
          rest := by
  subst hj
  simp [fetchPhase, hb, hp, ht, hprov, hz, addAllJobs_nil]

/-- C2 witness: a fetch client that raises before yielding anything, on
    one company group with two discovery-time candidates. -/
theorem ats_fetch_zero_yield_fallback_witness :
    fetchPhase fetchBoomEmpty initRunModel [("acme", [dAcme1, dAcme2])]
      = fetchPhase fetchBoomEmpty
          (addAllJobs
            (withAtsFetchError initRunModel dAcme1.company_name
              (fetchBoomEmpty (dAcme1.apply_url.getD "") dAcme1.company_name).error)
            [dAcme1, dAcme2])
          [] :=
  ats_fetch_zero_yield_fallback fetchBoomEmpty initRunModel "acme" [dAcme1, dAcme2] []
    dAcme1 [dAcme2] rfl (by decide) rfl (by decide) (by decide) rfl

/-- C2 counterexample: Acme's fetch yields one posting and then raises;
    the exception is caught and logged into the errors referencing Acme,
    but the discovery-time candidates are NOT added back — the fallback
    is skipped because the pre-exception count is positive, so the claim
    that the candidates of every raising fetch are re-added fails. -/
theorem ats_fetch_partial_yield_no_fallback_cex :
    runC2cex.result.errors = ["ATS error (Acme): boom"]
    ∧ runC2cex.result.jobs = [fAcme2]
    ∧ runC2cex.result.jobs.contains dAcme1 = false
    ∧ runC2cex.result.jobs.contains dAcme2 = false
    ∧ ((runC2cex.result.ats_companies).lookup "acme").isSome = true := by
  decide

/- ### End-to-end scenario (C3) -/

/-- C3 counterexample: in the end-to-end scenario the posting with the
    duplicated id survives as the ATS-fetched instance, not as the
    discovery-time instance — the discovery-time ATS-classified Acme
    postings are never added to the result when the fetch succeeds, so
    nothing blocks the fetched duplicate from being inserted. -/
theorem e2e_duplicate_survivor_cex :
    fAcme1.job_id = dAcme1.job_id
    ∧ get_job_key fAcme1 = get_job_key dAcme1
    ∧ runC3.result.jobs.contains fAcme1 = true
    ∧ runC3.result.jobs.contains dAcme1 = false
    ∧ (fAcme1 == dAcme1) = false := by
  decide

/-- C3 (amended): the end-to-end scenario produces exactly six postings
    — the native Tiny Co posting plus the five fetched Acme postings,
    with the duplicated id surviving as the ATS-fetched instance — and
    the recorded provider info for company key acme has posting count
    five. -/
theorem e2e_scenario_amended :
    runC3.result.jobs = [dTiny, fAcme1, fAcme2, fAcme3, fAcme4, fAcme5]
    ∧ runC3.result.jobs.length = 6
    ∧ (runC3.result.ats_companies).lookup "acme"
        = some { company_name := "Acme", ats_provider := ATSProvider.GREENHOUSE,
                 ats_base_url := "https://boards.greenhouse.io", job_count := 5 }
    ∧ runC3.result.linkedin_native_companies = ["tiny co"]
    ∧ fAcme1.job_id = dAcme1.job_id := by
  decide

/- ### Preservation of the scraper's own state across the later phases -/

theorem addAllJobs_scraperState (ps : List JobPosting) : ∀ m : RunModel,
    (addAllJobs m ps).scraperState = m.scraperState := by
  induction ps with
  | nil => intro m; rfl
  | cons p ps ih =>
      intro m
      rw [addAllJobs_cons, ih, add_job_scraperState]

theorem classifyPhase_scraperState (jobs : List JobPosting) :
    ∀ (m : RunModel) (groups : List (String × List JobPosting)) (native : List String),
      (classifyPhase m groups native jobs).1.scraperState = m.scraperState := by
  induction jobs with
  | nil => intro m groups native; rfl
  | cons j jobs ih =>
      intro m groups native
      simp only [classifyPhase]
      split
      · exact ih m _ _
      · rw [ih, add_job_scraperState]

theorem withAtsFetchError_scraperState (m : RunModel) (name : String)
    (err : Option String) : (withAtsFetchError m name err).scraperState = m.scraperState := by
  cases err <;> rfl

theorem fetchPhase_scraperState (fetch : String → String → FetchOutcome)
    (groups : List (String × List JobPosting)) : ∀ m : RunModel,
    (fetchPhase fetch m groups).scraperState = m.scraperState := by
  induction groups with
  | nil => intro m; rfl
  | cons g rest ih =>
      obtain ⟨k, js⟩ := g
      intro m
      cases js with
      | nil =>
          simp only [fetchPhase]
          split
          · rfl
          · split
            · exact ih m
            · exact ih m
      | cons rep tl =>
          simp only [fetchPhase]
          split
          · rfl
          · split
            · exact ih m
            · split
              · rw [ih, addAllJobs_scraperState]
              · split
                · rw [ih]
                  simp only [markProcessed, putAtsCompany]
                  rw [withAtsFetchError_scraperState, addAllJobs_scraperState]
                · rw [ih, addAllJobs_scraperState, withAtsFetchError_scraperState,
                    addAllJobs_scraperState]

theorem addGroups_scraperState (groups : List (String × List JobPosting)) :
    ∀ m : RunModel, (addGroups m groups).scraperState = m.scraperState := by
  induction groups with
  | nil => intro m; rfl
  | cons g rest ih =>
      intro m
      show (addGroups (addAllJobs m g.2) rest).scraperState = m.scraperState
      rw [ih, addAllJobs_scraperState]

theorem setNativeCompanies_scraperState (m : RunModel) (native : List String) :
    (setNativeCompanies m native).scraperState = m.scraperState := rfl

/- ### Discovery counting -/

theorem bump_result (m : RunModel) : (bumpScraperCollected m).result = m.result := rfl

theorem bump_seen (m : RunModel) :
    (bumpScraperCollected m).seen_job_ids = m.seen_job_ids := rfl

theorem bump_collected (m : RunModel) :
    (bumpScraperCollected m).scraperState.jobs_collected
      = m.scraperState.jobs_collected + 1 := rfl

theorem applyBlockDuring_collected (m : RunModel) (ob : Option BlockReason) :
    (applyBlockDuring m ob).scraperState.jobs_collected
      = m.scraperState.jobs_collected := by
  cases ob <;> rfl

theorem runDiscovery_count (steps : List DiscStep) : ∀ m : RunModel,
    (runDiscovery m steps).1.scraperState.jobs_collected
      = m.scraperState.jobs_collected + (runDiscovery m steps).2.length := by
  induction steps with
  | nil => intro m; simp [runDiscovery]
  | cons st rest ih =>
      intro m
      simp only [runDiscovery]
      split
      · rw [applyBlockDuring_collected, bump_collected]
        simp
      · rw [ih, applyBlockDuring_collected, bump_collected]
        simp only [List.length_cons]
        omega

/-- C10: finalizing replaces the result's run state wholesale with the
    discovery scraper's own state, so the final jobs_collected counter
    equals the number of postings yielded by the discovery phase; in the
    end-to-end scenario the discovery phase yields 3 postings while the
    final result holds 6, and the discarded pre-finalization counter had
    reached 6. -/
theorem final_state_wholesale_replacement :
    (∀ (fetch : String → String → FetchOutcome) (b : Bool) (steps : List DiscStep),
        (runPipeline fetch b steps).result.scraper_state
          = (runCore fetch b steps).scraperState)
    ∧ (∀ (fetch : String → String → FetchOutcome) (b : Bool) (steps : List DiscStep),
        (runPipeline fetch b steps).result.scraper_state.jobs_collected
          = (runDiscovery initRunModel steps).2.length)
    ∧ runC3.result.scraper_state.jobs_collected = 3
    ∧ (runCore ghFetch true c3steps).result.scraper_state.jobs_collected = 6
    ∧ runC3.result.jobs.length = 6 := by
  have hrepl : ∀ (fetch : String → String → FetchOutcome) (b : Bool) (steps : List DiscStep),
      (runPipeline fetch b steps).result.scraper_state
        = (runCore fetch b steps).scraperState := fun fetch b steps => rfl
  refine ⟨hrepl, fun fetch b steps => ?_, by decide, by decide, by decide⟩
  rw [hrepl]
  have hcore : (runCore fetch b steps).scraperState
      = (runDiscovery initRunModel steps).1.scraperState := by
    simp only [runCore]
    split
    · rfl
    · rw [setNativeCompanies_scraperState]
      split
      · rw [fetchPhase_scraperState, classifyPhase_scraperState]
      · rw [addGroups_scraperState, classifyPhase_scraperState]
  rw [hcore, runDiscovery_count]
  have h0 : initRunModel.scraperState.jobs_collected = 0 := rfl
  rw [h0, Nat.zero_add]

/- ### Partial results on block (C8) -/

theorem runDiscovery_first_block (post : List DiscStep) (st : DiscStep) (r : BlockReason)
    (h2 : st.blockDuring = some r) :
    ∀ (pre : List DiscStep) (m : RunModel),
      m.result.scraper_state.is_blocked = false →
      (∀ s ∈ pre, s.blockDuring = none) →
      (runDiscovery m (pre ++ st :: post)).2 = (pre ++ [st]).map (fun s => s.job)
      ∧ (runDiscovery m (pre ++ st :: post)).1.scraperState.is_blocked = true
      ∧ (runDiscovery m (pre ++ st :: post)).1.result.scraper_state.is_blocked = true
      ∧ (runDiscovery m (pre ++ st :: post)).1.result.jobs = m.result.jobs
      ∧ (runDiscovery m (pre ++ st :: post)).1.seen_job_ids = m.seen_job_ids := by
  intro pre
  induction pre with
  | nil =>
      intro m hm h1
      simp [runDiscovery, h2, applyBlockDuring, handleBlockChain, bumpScraperCollected]
  | cons s0 pre ih =>
      intro m hm h1
      have hs0 : s0.blockDuring = none := h1 s0 (List.mem_cons_self _ _)
      have hrest : ∀ s ∈ pre, s.blockDuring = none :=
        fun s hs => h1 s (List.mem_cons_of_mem _ hs)
      have hnotb : ¬ ((bumpScraperCollected m).result.scraper_state.is_blocked = true) := by
        rw [bump_result, hm]
        simp
      simp only [List.cons_append, runDiscovery, hs0, applyBlockDuring, if_neg hnotb,
        List.append_eq]
      obtain ⟨g1, g2, g3, g4, g5⟩ :=
        ih (bumpScraperCollected m) (by rw [bump_result]; exact hm) hrest
      refine ⟨?_, g2, g3, ?_, ?_⟩
      · rw [g1]
        simp
      · rw [g4, bump_result]
      · rw [g5, bump_seen]

theorem classifyPhase_all_native (jobs : List JobPosting) :
    ∀ (m : RunModel) (groups : List (String × List JobPosting)) (native : List String),
      (∀ j ∈ jobs, (j.job_origin == JobOrigin.ATS && optStrTruthy j.apply_url) = false) →
      (classifyPhase m groups native jobs).1 = addAllJobs m jobs
      ∧ (classifyPhase m groups native jobs).2.1 = groups := by
  induction jobs with
  | nil => intro m groups native h; exact ⟨rfl, rfl⟩
  | cons j jobs ih =>
      intro m groups native h
      have hj : (j.job_origin == JobOrigin.ATS && optStrTruthy j.apply_url) = false :=
        h j (List.mem_cons_self _ _)
      have hrest : ∀ q ∈ jobs, (q.job_origin == JobOrigin.ATS && optStrTruthy q.apply_url) = false :=
        fun q hq => h q (List.mem_cons_of_mem _ hq)
      simp only [classifyPhase, hj, Bool.false_eq_true, if_false]
      rw [addAllJobs_cons]
      exact ⟨(ih _ _ _ hrest).1, (ih _ _ _ hrest).2⟩

theorem firstOccurrences_of_nodup (ps : List JobPosting) : ∀ seen : List String,
    (∀ p ∈ ps, get_job_key p ∉ seen) → (ps.map get_job_key).Nodup →
    firstOccurrences seen ps = ps := by
  induction ps with
  | nil => intro seen h hnd; rfl
  | cons p ps ih =>
      intro seen h hnd
      rw [List.map_cons, List.nodup_cons] at hnd
      obtain ⟨hnotin, hnd'⟩ := hnd
      have hp : get_job_key p ∉ seen := h p (List.mem_cons_self _ _)
      simp only [firstOccurrences, if_neg hp]
      congr 1
      refine ih (get_job_key p :: seen) ?_ hnd'
      intro q hq hin
      rcases List.mem_cons.mp hin with heq | hseen
      · exact hnotin (heq ▸ List.mem_map_of_mem _ hq)
      · exact h q (List.mem_cons_of_mem _ hq) hseen

/-- C8: the orchestrator checks the blocked flag after consuming each
    discovery candidate and stops consuming the moment it is set,
    retaining the candidates consumed so far: when the first block fires
    during candidate number k of a native-classified discovery sequence,
    the run's final postings are exactly the first k candidates and the
    final run state is blocked. -/
theorem partial_results_on_block
    (fetch : String → String → FetchOutcome) (fetch_ats_jobs : Bool)
    (pre post : List DiscStep) (st : DiscStep) (r : BlockReason)
    (h1 : ∀ s ∈ pre, s.blockDuring = none)
    (h2 : st.blockDuring = some r)
    (h3 : ∀ s ∈ pre ++ [st],
        (s.job.job_origin == JobOrigin.ATS && optStrTruthy s.job.apply_url) = false)
    (h4 : ((pre ++ [st]).map (fun s => get_job_key s.job)).Nodup) :
    (runPipeline fetch fetch_ats_jobs (pre ++ st :: post)).result.jobs
        = (pre ++ [st]).map (fun s => s.job)
    ∧ (runPipeline fetch fetch_ats_jobs (pre ++ st :: post)).result.scraper_state.is_blocked
        = true := by
  obtain ⟨g1, g2, g3, g4, g5⟩ :=
    runDiscovery_first_block post st r h2 pre initRunModel rfl h1
  have hinit1 : initRunModel.result.jobs = [] := rfl
  have hinit2 : initRunModel.seen_job_ids = [] := rfl
  rw [hinit1] at g4
  rw [hinit2] at g5
  have hnat : ∀ j ∈ (runDiscovery initRunModel (pre ++ st :: post)).2,
      (j.job_origin == JobOrigin.ATS && optStrTruthy j.apply_url) = false := by
    rw [g1]
    intro j hj
    obtain ⟨s, hs, rfl⟩ := List.mem_map.mp hj
    exact h3 s hs
  obtain ⟨c1, c2⟩ :=
    classifyPhase_all_native (runDiscovery initRunModel (pre ++ st :: post)).2
      (runDiscovery initRunModel (pre ++ st :: post)).1 [] [] hnat
  have hne : (runDiscovery initRunModel (pre ++ st :: post)).2.isEmpty = false := by
    rw [g1]
    cases pre <;> simp
  have hcore : runCore fetch fetch_ats_jobs (pre ++ st :: post)
      = setNativeCompanies
          (addAllJobs (runDiscovery initRunModel (pre ++ st :: post)).1
            (runDiscovery initRunModel (pre ++ st :: post)).2)
          (classifyPhase (runDiscovery initRunModel (pre ++ st :: post)).1 [] []
            (runDiscovery initRunModel (pre ++ st :: post)).2).2.2 := by
    simp only [runCore, hne, Bool.false_eq_true, if_false, c1, c2]
    simp [addGroups]
  have hjobs : (addAllJobs (runDiscovery initRunModel (pre ++ st :: post)).1
      (runDiscovery initRunModel (pre ++ st :: post)).2).result.jobs
        = (pre ++ [st]).map (fun s => s.job) := by
    rw [addAllJobs_jobs, g4, g5, List.nil_append]
    rw [firstOccurrences_of_nodup]
    · exact g1
    · intro p hp hin
      exact (List.not_mem_nil _) hin
    · rw [g1, List.map_map]
      simpa using h4
  constructor
  · show (finalize_result (runCore fetch fetch_ats_jobs (pre ++ st :: post))).result.jobs = _
    rw [hcore]
    exact hjobs
  · show (finalize_result (runCore fetch fetch_ats_jobs (pre ++ st :: post))).result.scraper_state.is_blocked = true
    have hfin : ∀ mm : RunModel,
        (finalize_result mm).result.scraper_state = mm.scraperState := fun mm => rfl
    rw [hfin, hcore, setNativeCompanies_scraperState, addAllJobs_scraperState]
    exact g2

/-- C8 witness: a ten-candidate discovery sequence in which the block is
    classified while the fourth candidate is handled — exactly the first
    four candidates survive into the final result and the final run
    state is blocked. -/
theorem partial_results_on_block_witness :
    (runPipeline noFetch true (c8pre ++ c8blockStep :: c8post)).result.jobs
        = (c8pre ++ [c8blockStep]).map (fun s => s.job)
    ∧ (runPipeline noFetch true
        (c8pre ++ c8blockStep :: c8post)).result.scraper_state.is_blocked = true :=
  partial_results_on_block noFetch true c8pre c8post c8blockStep BlockReason.AUTHWALL
    (by decide) (by decide) (by decide) (by decide)
